import Mathlib

/-!
Shallow embedding of the Video Resolution Engine of `src/services/videoScraper.ts`
(class `VideoScraper`), together with theorems settling the spec's claims about it.

Machine strings are modelled as Lean `String`; JavaScript's
`String.prototype.includes` is modelled by an executable substring test on the
underlying character lists.  Asynchronous browser behaviour (navigation waits,
network responses, download streams) is modelled by passing the environment's
outcomes explicitly: a navigation attempt's success is a boolean, the network
traffic is a list of observed responses in arrival order, and a download is a
fetch response carrying its chunk stream.
-/

set_option maxHeartbeats 1000000

namespace VideoScraper

/-- Boolean test that the first character list occurs at the head of the second. -/
def isPrefixL : List Char → List Char → Bool
  | [], _ => true
  | _ :: _, [] => false
  | a :: as, b :: bs => a == b && isPrefixL as bs

/-- Boolean occurrence test of `pat` anywhere inside the second character list. -/
def containsSubL (pat : List Char) : List Char → Bool
  | [] => isPrefixL pat []
  | c :: rest => isPrefixL pat (c :: rest) || containsSubL pat rest

/-- Model of JavaScript `url.includes(pat)`: substring occurrence on strings. -/
def containsSub (s pat : String) : Bool :=
  containsSubL pat.data s.data

/-- Model of JavaScript `s.startsWith(pat)`. -/
def startsWithStr (s pat : String) : Bool :=
  isPrefixL pat.data s.data

/-- Model of "the URL's path ends in `pat`" for query-free URLs: a suffix test.
This definition follows the spec's words (used to state the tie-break claim),
not the source, which uses a substring test instead. -/
def endsWithStr (s pat : String) : Bool :=
  isPrefixL pat.data.reverse s.data.reverse

/-- Character class of JavaScript's regex `\s` (ECMAScript WhiteSpace and
LineTerminator code points). -/
def isJsWhitespace (c : Char) : Bool :=
  let n := c.toNat
  n == 0x9 || n == 0xa || n == 0xb || n == 0xc || n == 0xd || n == 0x20 ||
  n == 0xa0 || n == 0x1680 || (0x2000 ≤ n && n ≤ 0x200a) ||
  n == 0x2028 || n == 0x2029 || n == 0x202f || n == 0x205f ||
  n == 0x3000 || n == 0xfeff

/-- Strips a literal character-list head, returning the remainder on success. -/
def dropHead : List Char → List Char → Option (List Char)
  | [], s => some s
  | _ :: _, [] => none
  | a :: as, b :: bs => if a == b then dropHead as bs else none

/-- The two supported platforms of `VideoMetadata.platform`. -/
inductive Platform
  | tiktok
  | instagram
deriving DecidableEq, Repr

/-- Embedding of the `VideoMetadata` interface.  Optional TS fields are carried
as strings defaulting to the empty string, matching how the source populates
them; `videoBuffer` is the optional downloaded byte buffer (bytes as `Nat`). -/
structure VideoMetadata where
  videoUrl : String
  title : String := ""
  author : String := ""
  description : String := ""
  duration : Nat := 0
  platform : Platform
  videoBuffer : Option (List Nat) := none
deriving DecidableEq, Repr

/-- The `ignoredPatterns` array of `isIgnoredVideo` (the spec's SentinelURLSet). -/
def ignoredPatterns : List String :=
  ["playback1.mp4", "preview.mp4", "placeholder.mp4",
   "loading.mp4", "thumbnail.mp4", "poster.mp4"]

/-- Embedding of `VideoScraper.isIgnoredVideo`: true when the URL contains one
of the sentinel placeholder patterns. -/
def isIgnoredVideo (url : String) : Bool :=
  ignoredPatterns.any (fun pattern => containsSub url pattern)

/-! ## Platform classifier (`scrapeVideo` URL dispatch) -/

/-- Outcome of the URL dispatch at the head of `scrapeVideo`. -/
inductive ScrapeDispatch
  | tiktok
  | instagram
  | unsupportedPlatformError
deriving DecidableEq, Repr

/-- The full expansions of `^https?://(www\.)?(tiktok\.com|vm\.tiktok\.com)/`
from `tiktokRegex`: scheme alternative × optional `www.` × host alternative,
each followed by the mandatory slash. -/
def tiktokHeads : List String :=
  ["http://tiktok.com/", "http://vm.tiktok.com/",
   "http://www.tiktok.com/", "http://www.vm.tiktok.com/",
   "https://tiktok.com/", "https://vm.tiktok.com/",
   "https://www.tiktok.com/", "https://www.vm.tiktok.com/"]

/-- The full expansions of `^https?://(www\.)?(instagram\.com|instagr\.am)/`
from `instagramRegex`. -/
def instagramHeads : List String :=
  ["http://instagram.com/", "http://instagr.am/",
   "http://www.instagram.com/", "http://www.instagr.am/",
   "https://instagram.com/", "https://instagr.am/",
   "https://www.instagram.com/", "https://www.instagr.am/"]

/-- A URL matches one of the regex head expansions followed by `[^\s]*$`:
some head is a literal prefix and every remaining character is non-whitespace. -/
def matchesHeads (heads : List String) (url : String) : Bool :=
  heads.any (fun h =>
    match dropHead h.data url.data with
    | some rest => rest.all (fun c => !isJsWhitespace c)
    | none => false)

/-- Embedding of `tiktokRegex.test url`. -/
def matchesTiktokRegex (url : String) : Bool :=
  matchesHeads tiktokHeads url

/-- Embedding of `instagramRegex.test url`. -/
def matchesInstagramRegex (url : String) : Bool :=
  matchesHeads instagramHeads url

/-- Embedding of the dispatch in `scrapeVideo`: test the TikTok regex first,
then the Instagram regex, otherwise raise `VideoScraperError` (unsupported). -/
def scrapeVideoDispatch (url : String) : ScrapeDispatch :=
  if matchesTiktokRegex url then ScrapeDispatch.tiktok
  else if matchesInstagramRegex url then ScrapeDispatch.instagram
  else ScrapeDispatch.unsupportedPlatformError

/-! ## Navigation controller -/

/-- The `waitUntil` load conditions used by the navigation `page.goto` calls. -/
inductive WaitUntil
  | networkidle
  | domcontentloaded
  | load
deriving DecidableEq, Repr

/-- The navigation cascade of `scrapeTikTokVideoWithBrowser` (lines 131-140):
`networkidle` within 60s, on failure `domcontentloaded` within 45s, on failure
`load` within 30s, each attempt's failure caught before trying the next. -/
def tiktokNavSteps : List (WaitUntil × Nat) :=
  [(WaitUntil.networkidle, 60000), (WaitUntil.domcontentloaded, 45000),
   (WaitUntil.load, 30000)]

/-- The navigation of `scrapeInstagramVideo` (line 438): a single
`networkidle` attempt with a 30s timeout and no fallback. -/
def instagramNavSteps : List (WaitUntil × Nat) :=
  [(WaitUntil.networkidle, 30000)]

/-- Runs a try/catch cascade of `goto` attempts: `ok w` tells whether the
attempt with wait condition `w` succeeds within its timeout; the first success
short-circuits, and `none` means every attempt failed (navigation error). -/
def runCascade (steps : List (WaitUntil × Nat)) (ok : WaitUntil → Bool) :
    Option WaitUntil :=
  match steps with
  | [] => none
  | (w, _) :: rest => if ok w then some w else runCascade rest ok

/-! ## Network observer (`extractVideoUrlFromRequests`) -/

/-- One observed network response: its URL and its `content-type` header
(the empty string when the header is absent, as in the source's `|| ''`). -/
structure Response where
  url : String
  contentType : String
deriving DecidableEq, Repr

/-- Embedding of the `isVideoContent` test of the response handler. -/
def isVideoContent (contentType : String) : Bool :=
  containsSub contentType "video/" ||
  containsSub contentType "application/octet-stream"

/-- Embedding of the `isVideoUrl` test of the response handler. -/
def isVideoUrl (url : String) : Bool :=
  containsSub url ".mp4" ||
  containsSub url ".webm" ||
  containsSub url "/video/" ||
  containsSub url "tiktokcdn.com" ||
  containsSub url "muscdn.com" ||
  (containsSub url "tiktok" && containsSub url "mp4")

/-- State of the observer while responses arrive: the accumulated `foundUrls`
array and the value of the promise once `resolve` has been called (`resolve`
on a settled promise is a no-op, so only the first call counts). -/
structure ObserverState where
  foundUrls : List String
  resolved : Option String
deriving DecidableEq, Repr

/-- Embedding of the `page.on('response', ...)` handler body for one response. -/
def handleResponse (st : ObserverState) (r : Response) : ObserverState :=
  if (isVideoContent r.contentType || isVideoUrl r.url) && !isIgnoredVideo r.url then
    { foundUrls := st.foundUrls ++ [r.url],
      resolved :=
        match st.resolved with
        | some u => some u
        | none =>
            if containsSub r.url ".mp4" || isVideoContent r.contentType then
              some r.url
            else none }
  else st

/-- Observer state after the whole arrival-ordered response sequence. -/
def processResponses (rs : List Response) : ObserverState :=
  rs.foldl handleResponse { foundUrls := [], resolved := none }

/-- Derived predicate: the handler accepts the response into `foundUrls`. -/
def acceptedResponse (r : Response) : Bool :=
  (isVideoContent r.contentType || isVideoUrl r.url) && !isIgnoredVideo r.url

/-- Derived predicate: the response triggers the immediate `resolve(url)`. -/
def earlyExitResponse (r : Response) : Bool :=
  acceptedResponse r && (containsSub r.url ".mp4" || isVideoContent r.contentType)

/-- Embedding of the settle-window tie-break (lines 592-602): the first valid
URL containing `.mp4`, otherwise the first valid URL in arrival order;
`none` when the candidate list is empty (the branch is guarded by
`foundUrls.length > 0` / `validUrls.length > 0`). -/
def pickBestUrl (validUrls : List String) : Option String :=
  match validUrls.find? (fun url => containsSub url ".mp4") with
  | some u => some u
  | none => validUrls.head?

/-- Whole-observer model of `extractVideoUrlFromRequests` over a finite
response sequence: the promise's value if some response resolved it early,
otherwise the tie-break over the accumulated candidates after the settle
window; `none` models the 15s timeout rejection. -/
def extractVideoUrlFromRequests (rs : List Response) : Option String :=
  let st := processResponses rs
  match st.resolved with
  | some u => some u
  | none => pickBestUrl (st.foundUrls.filter (fun url => !isIgnoredVideo url))

/-! ## In-session downloader (`downloadVideoFromBrowser`) -/

/-- The size cap (50 MiB) used by both length checks of the in-page fetch. -/
def maxDownloadSize : Nat := 50 * 1024 * 1024

/-- The environment of one in-page `fetch` of the media URL: the HTTP status,
the declared `content-length` header when present, whether a body reader is
available, the byte-chunk stream in arrival order, whether the stream errors
mid-read, and the `content-type` header when present. -/
structure FetchResponse where
  status : Nat
  contentLength : Option Nat
  hasBody : Bool
  chunks : List (List Nat)
  streamError : Bool
  contentType : Option String
deriving DecidableEq, Repr

/-- Model of `Response.ok` of the Fetch API: status in the 2xx range. -/
def respOk (r : FetchResponse) : Bool :=
  200 ≤ r.status && r.status < 300

/-- The reader loop of the in-page fetch: pushes each chunk and adds its
length to the running total, failing (`none`) as soon as the running total
exceeds the cap; on completion returns the pushed chunks' concatenation and
the total size. -/
def readChunks (cap : Nat) : List (List Nat) → List Nat → Nat →
    Option (List Nat × Nat)
  | [], acc, total => some (acc, total)
  | c :: cs, acc, total =>
      let total' := total + c.length
      if cap < total' then none else readChunks cap cs (acc ++ c) total'

/-- Result of the function evaluated in the page: either the concatenated data
with its size and content type, or a failure (any thrown `VideoDownloadError`
or stream rejection, caught and returned as `success: false`). -/
inductive BrowserFetchOutcome
  | success (data : List Nat) (size : Nat) (contentType : String)
  | failure
deriving DecidableEq, Repr

/-- The declared-content-length check: a `content-length` header is present
and its value exceeds the cap. -/
def declaredTooLarge (r : FetchResponse) : Bool :=
  match r.contentLength with
  | some n => decide (maxDownloadSize < n)
  | none => false

/-- Embedding of the async function passed to `page.evaluate` in
`downloadVideoFromBrowser`: non-2xx status, an over-cap declared content
length, a missing body reader, an over-cap running total, or a stream error
all fail; otherwise the chunks are concatenated in order. -/
def browserFetchDownload (r : FetchResponse) : BrowserFetchOutcome :=
  if !respOk r then BrowserFetchOutcome.failure
  else if declaredTooLarge r then BrowserFetchOutcome.failure
  else if !r.hasBody then BrowserFetchOutcome.failure
  else if r.streamError then BrowserFetchOutcome.failure
  else
    match readChunks maxDownloadSize r.chunks [] 0 with
    | none => BrowserFetchOutcome.failure
    | some (data, size) =>
        BrowserFetchOutcome.success data size (r.contentType.getD "video/mp4")

/-- Embedding of `downloadVideoFromBrowser`: returns the input URL together
with the buffer on success; on any failure (the in-page function reporting
`success: false`, or `page.evaluate` itself rejecting, modelled by
`evalFails`) the outer catch returns the bare URL with no buffer. -/
def downloadVideoFromBrowser (videoUrl : String) (r : FetchResponse)
    (evalFails : Bool) : String × Option (List Nat) :=
  if evalFails then (videoUrl, none)
  else
    match browserFetchDownload r with
    | BrowserFetchOutcome.failure => (videoUrl, none)
    | BrowserFetchOutcome.success data _ _ => (videoUrl, some data)

/-! ## Embedded-state parse (`extractMetadataFromScriptTags`) -/

/-- The fields of the embedded JSON item structure that the field-path walk
reads (`__NEXT_DATA__` and `SIGI_STATE` use the same walk).  String fields
model JavaScript falsiness by the empty string; the two `url_list` paths are
carried as lists whose head is taken. -/
structure EmbeddedVideoData where
  downloadAddr : String := ""
  playAddr : String := ""
  playAddrUrlList : List String := []
  bitrateUrlList : List String := []
  desc : String := ""
  authorUniqueId : String := ""
  authorNickname : String := ""
  duration : Nat := 0
deriving DecidableEq, Repr

/-- JavaScript `a || b` on strings: `b` when `a` is empty (falsy), else `a`. -/
def jsOrStr (a b : String) : String :=
  if a == "" then b else a

/-- The `||`-chain that extracts the media address from the embedded item:
`downloadAddr || playAddr || play_addr.url_list[0] || bitrateInfo[0]...UrlList[0]`. -/
def extractEmbeddedUrl (d : EmbeddedVideoData) : String :=
  jsOrStr d.downloadAddr
    (jsOrStr d.playAddr
      (jsOrStr (d.playAddrUrlList.headD "") (d.bitrateUrlList.headD "")))

/-- Embedding of `extractMetadataFromScriptTags`: `none` when no embedded
payload was found or parsed (or the walk found no truthy media address);
otherwise the metadata built from the item structure.  No sentinel check is
performed on this path. -/
def extractMetadataFromScriptTags (d : Option EmbeddedVideoData) :
    Option VideoMetadata :=
  match d with
  | none => none
  | some dd =>
      let url := extractEmbeddedUrl dd
      if url == "" then none
      else
        some { videoUrl := url, title := dd.desc,
               author := jsOrStr dd.authorUniqueId dd.authorNickname,
               description := dd.desc, duration := dd.duration,
               platform := Platform.tiktok, videoBuffer := none }

/-! ## DOM probe (the `page.evaluate` block of the TikTok fallback) -/

/-- The `<video>` element as seen by the DOM probe: its nested `<source>`
`src` attributes in document order, and its `currentSrc` / `src` fields. -/
structure DomVideo where
  sources : List String
  currentSrc : String := ""
  src : String := ""
deriving DecidableEq, Repr

/-- The per-`<source>` filter of the DOM probe loop. -/
def goodDomSource (s : String) : Bool :=
  s != "" &&
  (containsSub s "v16-webapp" || containsSub s "v19-webapp" ||
   containsSub s "tiktokcdn.com" || containsSub s ".mp4")

/-- Embedding of the DOM probe's URL selection: the first `<source>` passing
the filter, else the first `<source>`'s `src`, else `currentSrc || src`;
the empty string when no `<video>` element exists.  No sentinel check is
performed on this path. -/
def pickDomVideoUrl (video : Option DomVideo) : String :=
  match video with
  | none => ""
  | some v =>
      let fromLoop := (v.sources.find? goodDomSource).getD ""
      let fromFirst := if fromLoop == "" then v.sources.headD "" else fromLoop
      if fromFirst == "" then jsOrStr v.currentSrc v.src else fromFirst

/-! ## The TikTok resolution pipeline (`scrapeTikTokVideoWithBrowser`) -/

/-- The environment of one TikTok resolution, after a successful navigation:
what the embedded-state parse found, whether some video selector matched, the
`<video>` element the DOM probe would read, the network responses the observer
sees, the fallback title/author probes, and the download environment. -/
structure PageEnv where
  embedded : Option EmbeddedVideoData
  domVideoFound : Bool
  domVideo : Option DomVideo
  responses : List Response
  fetchResp : FetchResponse
  evalFails : Bool
  probedTitle : String := ""
  probedAuthor : String := ""
  domTitle : String := ""
  domAuthor : String := ""
  domDuration : Nat := 0

/-- The tail of the DOM-probe branch (lines 247-261): when the metadata's URL
is truthy it is downloaded in-session (URL preserved, buffer attached when the
download succeeded) and the metadata is returned with the tiktok tag. -/
def finalizeDomMetadata (env : PageEnv) (u : String) : VideoMetadata :=
  if u == "" then
    { videoUrl := u, title := env.domTitle, author := env.domAuthor,
      duration := env.domDuration, platform := Platform.tiktok }
  else
    let dl := downloadVideoFromBrowser u env.fetchResp env.evalFails
    { videoUrl := dl.1, title := env.domTitle, author := env.domAuthor,
      duration := env.domDuration, platform := Platform.tiktok,
      videoBuffer := dl.2 }

/-- Embedding of the extraction body of `scrapeTikTokVideoWithBrowser`
(lines 150-261): embedded-state parse first (its result downloaded and
returned directly), else the DOM probe when a selector matched (empty DOM
address substituted by the network observer's result, then downloaded), else
the network observer's result alone; `none` models the path throwing. -/
def scrapeTikTokModel (env : PageEnv) : Option VideoMetadata :=
  match extractMetadataFromScriptTags env.embedded with
  | some m =>
      let dl := downloadVideoFromBrowser m.videoUrl env.fetchResp env.evalFails
      some { m with videoUrl := dl.1,
                    videoBuffer := match dl.2 with
                                   | some b => some b
                                   | none => m.videoBuffer }
  | none =>
      if !env.domVideoFound then
        match extractVideoUrlFromRequests env.responses with
        | some u =>
            some { videoUrl := u, title := env.probedTitle,
                   author := env.probedAuthor, platform := Platform.tiktok }
        | none => none
      else
        let domUrl := pickDomVideoUrl env.domVideo
        let urlOpt :=
          if domUrl == "" then extractVideoUrlFromRequests env.responses
          else some domUrl
        match urlOpt with
        | none => none
        | some u => some (finalizeDomMetadata env u)

/-! ## Context lifecycle traces

The close-exactly-once claim is about control flow, so each scrape function is
modelled as the trace of resource events it performs, driven by which of its
awaited setup steps succeed.  In both functions the browsing context is
created, then `context.newPage()` (and, for TikTok, `page.addInitScript`) are
awaited BEFORE the `try` block whose `finally` clause performs
`await page.close(); await context.close()`; the body itself (navigation,
extraction, download, the rethrowing catch) always falls through to the
`finally`, whether it returns or throws. -/

/-- Resource events of one scrape call. -/
inductive LifecycleEvent
  | newContext
  | newPage
  | addInitScript
  | bodyRan
  | threw
  | closePage
  | closeContext
deriving DecidableEq, Repr

/-- Which awaited steps of one TikTok scrape succeed: `newPageOk` for
`context.newPage()`, `initScriptOk` for `page.addInitScript`, `bodyOk` for
whether the try body completes without throwing. -/
structure TikTokRunEnv where
  newPageOk : Bool
  initScriptOk : Bool
  bodyOk : Bool
deriving DecidableEq, Repr

/-- Event trace of `scrapeTikTokVideoWithBrowser` (lines 78-268): the context
is created at line 78, the page at line 93 and the init script at line 96 are
awaited outside the `try` beginning at line 130, and the `finally` at lines
265-268 closes the page and the context. -/
def scrapeTikTokTrace (env : TikTokRunEnv) : List LifecycleEvent :=
  [LifecycleEvent.newContext] ++
  (if !env.newPageOk then [LifecycleEvent.threw]
   else
     [LifecycleEvent.newPage] ++
     (if !env.initScriptOk then [LifecycleEvent.threw]
      else
        [LifecycleEvent.addInitScript] ++
        (if env.bodyOk then [LifecycleEvent.bodyRan]
         else [LifecycleEvent.bodyRan, LifecycleEvent.threw]) ++
        [LifecycleEvent.closePage, LifecycleEvent.closeContext]))

/-- Which awaited steps of one Instagram scrape succeed. -/
structure InstagramRunEnv where
  newPageOk : Bool
  bodyOk : Bool
deriving DecidableEq, Repr

/-- Event trace of `scrapeInstagramVideo` (lines 429-473): the context is
created at line 429 and the page at line 433 is awaited outside the `try`
beginning at line 435, whose `finally` at lines 470-473 closes both. -/
def scrapeInstagramTrace (env : InstagramRunEnv) : List LifecycleEvent :=
  [LifecycleEvent.newContext] ++
  (if !env.newPageOk then [LifecycleEvent.threw]
   else
     [LifecycleEvent.newPage] ++
     (if env.bodyOk then [LifecycleEvent.bodyRan]
      else [LifecycleEvent.bodyRan, LifecycleEvent.threw]) ++
     [LifecycleEvent.closePage, LifecycleEvent.closeContext])

/-- How many times a trace closes the browsing context. -/
def closeContextCount (t : List LifecycleEvent) : Nat :=
  t.count LifecycleEvent.closeContext

/-! ## Error labelling of the Instagram path -/

/-- The message of the guard thrown by `scrapeInstagramVideo` when the
browser connection has not been established (line 425). -/
def browserNotInitializedMsg : String :=
  "Browser not initialized. Call init() first."

/-- The prefix of every message built by the catch block of
`scrapeInstagramVideo` (line 469) around the inner error's message. -/
def tiktokFailureLabel : String :=
  "Failed to scrape TikTok video: "

/-- Error message of a `scrapeInstagramVideo` call, when it fails: the
uninitialized-browser guard throws before the `try`, as do context/page setup
rejections (`setupError`, propagated unwrapped); an error thrown inside the
`try` body (`bodyError`) is re-thrown by the catch block wrapped in the
TikTok-labelled message; `none` means the call succeeded. -/
def scrapeInstagramErrorMsg (browserInitialized : Bool)
    (setupError : Option String) (bodyError : Option String) : Option String :=
  if !browserInitialized then some browserNotInitializedMsg
  else
    match setupError with
    | some m => some m
    | none =>
        match bodyError with
        | some m => some (tiktokFailureLabel ++ m)
        | none => none

example : containsSub "https://a/b.mp4?x=1" ".mp4" = true := by decide
example : containsSub "https://a/b.webm" ".mp4" = false := by decide
example : isIgnoredVideo "https://cdn.x.com/preview.mp4" = true := by decide
example : isIgnoredVideo "https://cdn.x.com/real-video.mp4" = false := by decide
example : scrapeVideoDispatch "https://www.tiktok.com/@u/video/7" = ScrapeDispatch.tiktok := by decide
example : scrapeVideoDispatch "https://instagr.am/p/abc" = ScrapeDispatch.instagram := by decide
example : scrapeVideoDispatch "https://vimeo.com/1" = ScrapeDispatch.unsupportedPlatformError := by decide
example : scrapeVideoDispatch "https://www.tiktok.com/a b" = ScrapeDispatch.unsupportedPlatformError := by decide

/-! ## Helper lemmas -/

/-- A character list is a prefix of itself followed by anything. -/
theorem isPrefixL_self_append (xs ys : List Char) :
    isPrefixL xs (xs ++ ys) = true := by
  induction xs with
  | nil => rfl
  | cons a as ih => simp [isPrefixL, ih]

/-- A string starts with itself-as-prefix of any append. -/
theorem startsWithStr_append (s t : String) :
    startsWithStr (s ++ t) s = true := by
  cases s with
  | mk sd =>
      cases t with
      | mk td => simpa [startsWithStr, String.data] using isPrefixL_self_append sd td

/-- The download step returns the URL it was given, on every path. -/
theorem downloadVideoFromBrowser_fst (videoUrl : String) (r : FetchResponse)
    (evalFails : Bool) :
    (downloadVideoFromBrowser videoUrl r evalFails).1 = videoUrl := by
  cases evalFails with
  | true => simp [downloadVideoFromBrowser]
  | false => cases h : browserFetchDownload r <;>
      simp [downloadVideoFromBrowser, h]

/-- Any of the failure conditions of the in-session download produces the bare
URL with no buffer. -/
theorem downloadVideoFromBrowser_failure (videoUrl : String) (r : FetchResponse)
    (evalFails : Bool)
    (hfail : respOk r = false ∨ declaredTooLarge r = true ∨
             readChunks maxDownloadSize r.chunks [] 0 = none ∨
             r.streamError = true ∨ r.hasBody = false ∨ evalFails = true) :
    downloadVideoFromBrowser videoUrl r evalFails = (videoUrl, none) := by
  cases evalFails with
  | true => simp [downloadVideoFromBrowser]
  | false =>
      have hb : browserFetchDownload r = BrowserFetchOutcome.failure := by
        unfold browserFetchDownload
        rcases hfail with h | h | h | h | h | h
        · simp [h]
        · simp [h]
        · simp [h]
        · simp [h]
        · simp [h]
        · cases h
      simp [downloadVideoFromBrowser, hb]

/-- The reader loop, on success, concatenates the chunks in order, totals
their lengths, and never lets the total exceed the cap it started under. -/
theorem readChunks_spec (cap : Nat) (cs : List (List Nat)) :
    ∀ (acc : List Nat) (total : Nat) (data : List Nat) (size : Nat),
      readChunks cap cs acc total = some (data, size) →
      data = acc ++ cs.flatten ∧
      size = total + (cs.map List.length).sum ∧
      (total ≤ cap → size ≤ cap) := by
  induction cs with
  | nil =>
      intro acc total data size h
      simp [readChunks] at h
      obtain ⟨h1, h2⟩ := h
      subst h1; subst h2
      simp
  | cons c cs ih =>
      intro acc total data size h
      simp only [readChunks] at h
      by_cases hc : cap < total + c.length
      · simp [hc] at h
      · simp only [hc, if_false] at h
        obtain ⟨h1, h2, h3⟩ := ih (acc ++ c) (total + c.length) data size h
        refine ⟨by simp [h1], by simp [h2]; omega, fun _ => h3 (by omega)⟩

/-- A successful in-page fetch returns the order-preserving concatenation of
the stream's chunks, whose size is the sum of the chunk lengths and is within
the 50 MiB cap. -/
theorem browserFetchDownload_success_spec (r : FetchResponse)
    (data : List Nat) (size : Nat) (ct : String)
    (h : browserFetchDownload r = BrowserFetchOutcome.success data size ct) :
    data = r.chunks.flatten ∧ size = (r.chunks.map List.length).sum ∧
    size ≤ maxDownloadSize ∧ data.length = size := by
  unfold browserFetchDownload at h
  cases h1 : respOk r
  · simp [h1] at h
  · cases h2 : declaredTooLarge r
    · cases h3 : r.hasBody
      · simp [h1, h2, h3] at h
      · cases h4 : r.streamError
        · simp only [h1, h2, h3, h4, Bool.not_true, Bool.not_false,
            if_true, if_false] at h
          cases hrc : readChunks maxDownloadSize r.chunks [] 0 with
          | none => rw [hrc] at h; cases h
          | some p =>
              obtain ⟨d, s⟩ := p
              rw [hrc] at h
              injection h with hd' hs' hct'
              subst hd'; subst hs'
              obtain ⟨hd, hs, hbound⟩ :=
                readChunks_spec maxDownloadSize r.chunks [] 0 d s hrc
              refine ⟨by simpa using hd, by simpa using hs,
                      hbound (Nat.zero_le _), ?_⟩
              rw [hd, hs]
              simp [List.length_flatten]
        · simp [h1, h2, h3, h4] at h
    · simp [h1, h2] at h

/-- The DOM-branch finalizer keeps the URL it was handed, on both the
empty-URL path and the downloaded path. -/
theorem finalizeDomMetadata_videoUrl (env : PageEnv) (u : String) :
    (finalizeDomMetadata env u).videoUrl = u := by
  unfold finalizeDomMetadata
  cases h : (u == "")
  · simp only [Bool.false_eq_true, if_false]
    exact downloadVideoFromBrowser_fst u env.fetchResp env.evalFails
  · simp only [if_true]

/-- A metadata record produced by the embedded-state parse has a non-empty
media URL and no buffer yet. -/
theorem extractMetadataFromScriptTags_spec (d : Option EmbeddedVideoData)
    (m : VideoMetadata) (h : extractMetadataFromScriptTags d = some m) :
    m.videoUrl ≠ "" ∧ m.videoBuffer = none := by
  cases d with
  | none => simp [extractMetadataFromScriptTags] at h
  | some dd =>
      cases hu : (extractEmbeddedUrl dd == "")
      · simp only [extractMetadataFromScriptTags, hu, Bool.false_eq_true,
          if_false, Option.some.injEq] at h
        subst h
        exact ⟨by simpa using hu, rfl⟩
      · simp [extractMetadataFromScriptTags, hu] at h

/-- Characterization of the observer state after a response sequence, from any
intermediate state: `foundUrls` collects the accepted responses' URLs in
arrival order, and the promise's value is the first early-exit response's URL
unless it was already settled. -/
theorem foldl_handleResponse_spec (rs : List Response) :
    ∀ st : ObserverState,
      (rs.foldl handleResponse st).foundUrls =
        st.foundUrls ++ (rs.filter acceptedResponse).map Response.url ∧
      (rs.foldl handleResponse st).resolved =
        (match st.resolved with
         | some u => some u
         | none => (rs.find? earlyExitResponse).map Response.url) := by
  induction rs with
  | nil => intro st; cases h : st.resolved <;> simp [h]
  | cons r rs ih =>
      intro st
      rw [List.foldl_cons]
      have hacc' : ((isVideoContent r.contentType || isVideoUrl r.url) &&
          !isIgnoredVideo r.url) = acceptedResponse r := rfl
      cases hacc : acceptedResponse r
      · have hee : earlyExitResponse r = false := by
          simp [earlyExitResponse, hacc]
        have hst : handleResponse st r = st := by
          unfold handleResponse
          rw [hacc', hacc]
          simp
        rw [hst]
        obtain ⟨ih1, ih2⟩ := ih st
        rw [ih1, ih2]
        constructor
        · simp [List.filter_cons, hacc]
        · cases h : st.resolved with
          | some u => simp
          | none => simp only [List.find?, hee]
      · have hfu : (handleResponse st r).foundUrls =
            st.foundUrls ++ [r.url] := by
          unfold handleResponse
          rw [hacc', hacc]
          simp
        have hres : (handleResponse st r).resolved =
            (match st.resolved with
             | some u => some u
             | none =>
                 if containsSub r.url ".mp4" ||
                    isVideoContent r.contentType then some r.url
                 else none) := by
          unfold handleResponse
          rw [hacc', hacc]
          simp
        obtain ⟨ih1, ih2⟩ := ih (handleResponse st r)
        rw [ih1, ih2, hfu, hres]
        constructor
        · simp [List.filter_cons, hacc, List.append_assoc]
        · cases h : st.resolved with
          | some u => simp
          | none =>
              cases hc : (containsSub r.url ".mp4" ||
                          isVideoContent r.contentType)
              · have hee : earlyExitResponse r = false := by
                  simp [earlyExitResponse, acceptedResponse, hc]
                simp only [hc, Bool.false_eq_true, if_false,
                  List.find?, hee]
              · have hee : earlyExitResponse r = true := by
                  simp [earlyExitResponse, hacc, hc]
                simp only [hc, if_true, List.find?, hee]
                simp

/-- Specialization to the observer's initial state. -/
theorem processResponses_spec (rs : List Response) :
    (processResponses rs).foundUrls =
      (rs.filter acceptedResponse).map Response.url ∧
    (processResponses rs).resolved =
      (rs.find? earlyExitResponse).map Response.url := by
  obtain ⟨h1, h2⟩ := foldl_handleResponse_spec rs
    { foundUrls := [], resolved := none }
  exact ⟨by simpa using h1, by simpa using h2⟩

/-- The tie-break only ever selects a member of its candidate list. -/
theorem pickBestUrl_mem (l : List String) (u : String)
    (h : pickBestUrl l = some u) : u ∈ l := by
  unfold pickBestUrl at h
  cases hf : l.find? (fun url => containsSub url ".mp4") with
  | some v =>
      rw [hf] at h
      injection h with h'
      subst h'
      exact List.mem_of_find?_eq_some hf
  | none =>
      rw [hf] at h
      cases l with
      | nil => cases h
      | cons a as =>
          injection h with h'
          subst h'
          exact List.mem_cons_self a as

/-- Every URL accepted into `foundUrls` is non-sentinel. -/
theorem foundUrls_not_ignored (rs : List Response) (u : String)
    (h : u ∈ (processResponses rs).foundUrls) : isIgnoredVideo u = false := by
  obtain ⟨h1, _⟩ := processResponses_spec rs
  rw [h1] at h
  obtain ⟨r, hr, rfl⟩ := List.mem_map.mp h
  have hacc : acceptedResponse r = true := (List.mem_filter.mp hr).2
  unfold acceptedResponse at hacc
  have := (Bool.and_eq_true _ _).mp hacc
  simpa using this.2

/-- Any URL the network observer resolves with is non-sentinel. -/
theorem extractVideoUrlFromRequests_non_sentinel (rs : List Response)
    (u : String) (h : extractVideoUrlFromRequests rs = some u) :
    isIgnoredVideo u = false := by
  simp only [extractVideoUrlFromRequests] at h
  obtain ⟨h1, h2⟩ := processResponses_spec rs
  cases hres : (processResponses rs).resolved with
  | some v =>
      rw [hres] at h
      injection h with h'
      subst h'
      rw [h2] at hres
      obtain ⟨r, hr, hru⟩ := Option.map_eq_some'.mp hres
      have hee : earlyExitResponse r = true := List.find?_some hr
      unfold earlyExitResponse acceptedResponse at hee
      have hb := (Bool.and_eq_true _ _).mp hee
      have hb2 := (Bool.and_eq_true _ _).mp hb.1
      rw [← hru]
      simpa using hb2.2
  | none =>
      rw [hres] at h
      have hmem := pickBestUrl_mem _ _ h
      have := List.mem_filter.mp hmem
      simpa using this.2

/-! ## Claim theorems -/

/-- C1 counterexample: a resolution whose media URL came from the
embedded-state parse returns a member of SentinelURLSet unfiltered — here the
embedded `downloadAddr` is the sentinel `preview.mp4` pattern, the in-session
download fails with a 403, and the final result's mediaUrl is that sentinel. -/
theorem sentinel_url_returned_counterexample :
    scrapeTikTokModel
      { embedded := some { downloadAddr := "https://cdn.tiktok.com/preview.mp4" },
        domVideoFound := false, domVideo := none, responses := [],
        fetchResp := { status := 403, contentLength := none, hasBody := true,
                       chunks := [], streamError := false, contentType := none },
        evalFails := false } =
      some { videoUrl := "https://cdn.tiktok.com/preview.mp4",
             platform := Platform.tiktok } ∧
    isIgnoredVideo "https://cdn.tiktok.com/preview.mp4" = true := by
  decide

/-- C1 (amended): a final mediaUrl that the network-observation strategy
produced (no embedded-state candidate and no non-empty DOM candidate) is never
a member of SentinelURLSet; the embedded-state and DOM strategies perform no
sentinel filtering. -/
theorem scrapeTikTok_network_result_non_sentinel (env : PageEnv)
    (m : VideoMetadata)
    (hemb : extractMetadataFromScriptTags env.embedded = none)
    (hdom : env.domVideoFound = false ∨ pickDomVideoUrl env.domVideo = "")
    (hm : scrapeTikTokModel env = some m) :
    isIgnoredVideo m.videoUrl = false := by
  unfold scrapeTikTokModel at hm
  rw [hemb] at hm
  cases hdf : env.domVideoFound
  · rw [hdf] at hm
    simp only [Bool.not_false, if_true] at hm
    cases hx : extractVideoUrlFromRequests env.responses with
    | none => rw [hx] at hm; cases hm
    | some u =>
        rw [hx] at hm
        injection hm with hm'
        subst hm'
        simpa using extractVideoUrlFromRequests_non_sentinel env.responses u hx
  · have hd : pickDomVideoUrl env.domVideo = "" := by
      rcases hdom with h | h
      · rw [hdf] at h; cases h
      · exact h
    rw [hdf] at hm
    simp only [Bool.not_true, Bool.false_eq_true, if_false] at hm
    rw [hd] at hm
    simp only [beq_self_eq_true, if_true] at hm
    cases hx : extractVideoUrlFromRequests env.responses with
    | none => rw [hx] at hm; cases hm
    | some u =>
        rw [hx] at hm
        injection hm with hm'
        subst hm'
        rw [finalizeDomMetadata_videoUrl]
        exact extractVideoUrlFromRequests_non_sentinel env.responses u hx

/-- C1 witness: a concrete network-produced resolution whose mediaUrl is not a
sentinel. -/
theorem scrapeTikTok_network_result_non_sentinel_witness :
    isIgnoredVideo "https://v16-webapp.tiktok.com/vid.mp4" = false :=
  scrapeTikTok_network_result_non_sentinel
    { embedded := none, domVideoFound := false, domVideo := none,
      responses := [{ url := "https://v16-webapp.tiktok.com/vid.mp4",
                      contentType := "video/mp4" }],
      fetchResp := { status := 403, contentLength := none, hasBody := true,
                     chunks := [], streamError := false, contentType := none },
      evalFails := false }
    { videoUrl := "https://v16-webapp.tiktok.com/vid.mp4",
      platform := Platform.tiktok }
    (by decide) (Or.inl (by decide)) (by decide)

/-- C2: the URL dispatch of `scrapeVideo` is total and deterministic — every
input string yields exactly one of the TikTok classification, the Instagram
classification, or the unsupported-platform error, never two of them, and
identical inputs yield identical outputs. -/
theorem scrapeVideoDispatch_total_deterministic (url : String) :
    ((scrapeVideoDispatch url = ScrapeDispatch.tiktok ∧
      scrapeVideoDispatch url ≠ ScrapeDispatch.instagram ∧
      scrapeVideoDispatch url ≠ ScrapeDispatch.unsupportedPlatformError) ∨
     (scrapeVideoDispatch url = ScrapeDispatch.instagram ∧
      scrapeVideoDispatch url ≠ ScrapeDispatch.tiktok ∧
      scrapeVideoDispatch url ≠ ScrapeDispatch.unsupportedPlatformError) ∨
     (scrapeVideoDispatch url = ScrapeDispatch.unsupportedPlatformError ∧
      scrapeVideoDispatch url ≠ ScrapeDispatch.tiktok ∧
      scrapeVideoDispatch url ≠ ScrapeDispatch.instagram)) ∧
    (∀ url2 : String, url = url2 →
      scrapeVideoDispatch url = scrapeVideoDispatch url2) := by
  constructor
  · cases h : scrapeVideoDispatch url with
    | tiktok => exact Or.inl ⟨rfl, by decide, by decide⟩
    | instagram => exact Or.inr (Or.inl ⟨rfl, by decide, by decide⟩)
    | unsupportedPlatformError =>
        exact Or.inr (Or.inr ⟨rfl, by decide, by decide⟩)
  · intro url2 h
    rw [h]

/-- C2 witness: the determinism component applied at a concrete URL. -/
theorem scrapeVideoDispatch_total_deterministic_witness :
    scrapeVideoDispatch "https://www.tiktok.com/@user/video/7" =
      scrapeVideoDispatch "https://www.tiktok.com/@user/video/7" :=
  (scrapeVideoDispatch_total_deterministic
      "https://www.tiktok.com/@user/video/7").2
    "https://www.tiktok.com/@user/video/7" rfl

/-- C3 counterexample: the claim's three-step cascade holds only on the TikTok
path; in an environment where network quiescence fails but document parse
succeeds, the claim predicts a successful navigation, yet the Instagram
navigation (a single networkidle attempt, 30s) fails. -/
theorem navigation_cascade_counterexample :
    runCascade instagramNavSteps
      (fun w => match w with
                | WaitUntil.domcontentloaded => true
                | _ => false) = none ∧
    runCascade tiktokNavSteps
      (fun w => match w with
                | WaitUntil.domcontentloaded => true
                | _ => false) = some WaitUntil.domcontentloaded ∧
    instagramNavSteps ≠ tiktokNavSteps := by
  decide

/-- C3 (amended): the TikTok navigation attempts the three-step cascade
(networkidle 60s, then domcontentloaded 45s, then load 30s), the first success
short-circuits, and all three failing fails the navigation; the Instagram
navigation is a single networkidle attempt with a 30s timeout that fails
directly when it fails. -/
theorem navigation_cascade_spec (ok : WaitUntil → Bool) :
    tiktokNavSteps = [(WaitUntil.networkidle, 60000),
                      (WaitUntil.domcontentloaded, 45000),
                      (WaitUntil.load, 30000)] ∧
    runCascade tiktokNavSteps ok =
      (if ok WaitUntil.networkidle then some WaitUntil.networkidle
       else if ok WaitUntil.domcontentloaded then
         some WaitUntil.domcontentloaded
       else if ok WaitUntil.load then some WaitUntil.load
       else none) ∧
    instagramNavSteps = [(WaitUntil.networkidle, 30000)] ∧
    runCascade instagramNavSteps ok =
      (if ok WaitUntil.networkidle then some WaitUntil.networkidle
       else none) :=
  ⟨rfl, rfl, rfl, rfl⟩

/-- C4 counterexample: the tie-break selects by substring containment, not by
path suffix — with a candidate whose URL merely contains ".mp4" arriving
before one whose path ends in ".mp4", the former is selected. -/
theorem pickBestUrl_counterexample :
    pickBestUrl ["https://a.com/x.mp4extra", "https://b.com/y.mp4"] =
      some "https://a.com/x.mp4extra" ∧
    endsWithStr "https://a.com/x.mp4extra" ".mp4" = false ∧
    endsWithStr "https://b.com/y.mp4" ".mp4" = true := by
  decide

/-- C4 (amended): the tie-break prefers the first candidate whose URL contains
".mp4" over any other classified candidate, and otherwise selects the first
classified candidate in arrival order. -/
theorem pickBestUrl_prefers_mp4 (validUrls : List String) :
    ((∃ u ∈ validUrls, containsSub u ".mp4" = true) →
      pickBestUrl validUrls =
        validUrls.find? (fun url => containsSub url ".mp4") ∧
      ∀ u, pickBestUrl validUrls = some u → containsSub u ".mp4" = true) ∧
    ((∀ u ∈ validUrls, containsSub u ".mp4" = false) →
      pickBestUrl validUrls = validUrls.head?) := by
  unfold pickBestUrl
  cases hf : validUrls.find? (fun url => containsSub url ".mp4") with
  | some v =>
      constructor
      · intro _
        refine ⟨rfl, ?_⟩
        intro u hu
        have hu' : some v = some u := hu
        injection hu' with hu''
        subst hu''
        simpa using List.find?_some hf
      · intro hall
        have hv : containsSub v ".mp4" = true := by
          simpa using List.find?_some hf
        have hmem := List.mem_of_find?_eq_some hf
        rw [hall v hmem] at hv
        cases hv
  | none =>
      constructor
      · rintro ⟨u, hu, hcu⟩
        have hnone := List.find?_eq_none.mp hf u hu
        exact absurd hcu hnone
      · intro _
        rfl

/-- C4 witness: with a ".mp4" candidate present, the tie-break returns the
first ".mp4"-containing candidate. -/
theorem pickBestUrl_prefers_mp4_witness :
    pickBestUrl ["https://a.com/v.webm", "https://b.com/y.mp4"] =
      List.find? (fun url => containsSub url ".mp4")
        ["https://a.com/v.webm", "https://b.com/y.mp4"] :=
  ((pickBestUrl_prefers_mp4 ["https://a.com/v.webm", "https://b.com/y.mp4"]).1
    ⟨"https://b.com/y.mp4", by decide, by decide⟩).1

/-- C5 counterexample: a classified response with a media content type but no
".mp4" in its URL is not merely accumulated — it resolves the observer
immediately, preempting the later ".mp4" response the claim says would be the
first early exit. -/
theorem network_observer_early_exit_counterexample :
    extractVideoUrlFromRequests
      [{ url := "https://cdn.example.com/clip.webm",
         contentType := "video/webm" },
       { url := "https://cdn.example.com/clip.mp4", contentType := "" }] =
      some "https://cdn.example.com/clip.webm" ∧
    extractVideoUrlFromRequests
      [{ url := "https://cdn.example.com/clip.webm",
         contentType := "video/webm" },
       { url := "https://cdn.example.com/clip.mp4", contentType := "" }] ≠
      some "https://cdn.example.com/clip.mp4" := by
  decide

/-- C5 (amended): sentinel responses are discarded unconditionally regardless
of content type; every accumulated candidate is the URL of a classified
non-sentinel response in arrival order; and the observer resolves immediately
exactly at the first classified non-sentinel response whose URL contains
".mp4" or whose content type is media-like — not only at ".mp4" URLs. -/
theorem network_observer_classification_spec (rs : List Response) :
    (processResponses rs).resolved =
      (rs.find? earlyExitResponse).map Response.url ∧
    (processResponses rs).foundUrls =
      (rs.filter acceptedResponse).map Response.url ∧
    (∀ u ∈ (processResponses rs).foundUrls, isIgnoredVideo u = false) ∧
    (∀ u, (processResponses rs).resolved = some u →
      isIgnoredVideo u = false) := by
  refine ⟨(processResponses_spec rs).2, (processResponses_spec rs).1,
          fun u hu => foundUrls_not_ignored rs u hu, ?_⟩
  intro u hres
  apply extractVideoUrlFromRequests_non_sentinel rs
  simp only [extractVideoUrlFromRequests, hres]

/-- C5 witness: a candidate classified by URL pattern alone is accumulated and
is non-sentinel. -/
theorem network_observer_classification_spec_witness :
    isIgnoredVideo "https://p16.tiktokcdn.com/obj/item" = false :=
  (network_observer_classification_spec
      [{ url := "https://p16.tiktokcdn.com/obj/item",
         contentType := "" }]).2.2.1
    "https://p16.tiktokcdn.com/obj/item" (by decide)

/-- C6: when the in-session download fails for any of its reasons — non-2xx
status, over-cap declared content length, over-cap running total, stream
error, missing body, or the evaluate call itself failing — the resolution
still succeeds, returning the metadata with its populated mediaUrl and an
absent mediaBuffer. -/
theorem download_failure_not_fatal (env : PageEnv) (m : VideoMetadata)
    (hm : extractMetadataFromScriptTags env.embedded = some m)
    (hfail : respOk env.fetchResp = false ∨
             declaredTooLarge env.fetchResp = true ∨
             readChunks maxDownloadSize env.fetchResp.chunks [] 0 = none ∨
             env.fetchResp.streamError = true ∨
             env.fetchResp.hasBody = false ∨
             env.evalFails = true) :
    scrapeTikTokModel env = some m ∧ m.videoUrl ≠ "" ∧
    m.videoBuffer = none := by
  obtain ⟨hurl, hbuf⟩ := extractMetadataFromScriptTags_spec env.embedded m hm
  have hdl := downloadVideoFromBrowser_failure m.videoUrl env.fetchResp
    env.evalFails hfail
  refine ⟨?_, hurl, hbuf⟩
  unfold scrapeTikTokModel
  rw [hm]
  simp only [hdl]

/-- C6 witness: a concrete 403-failing download still resolves with the
embedded-state mediaUrl and no buffer. -/
theorem download_failure_not_fatal_witness :
    scrapeTikTokModel
      { embedded := some { downloadAddr := "https://v19-webapp.tiktok.com/a.mp4" },
        domVideoFound := false, domVideo := none, responses := [],
        fetchResp := { status := 403, contentLength := none, hasBody := true,
                       chunks := [], streamError := false, contentType := none },
        evalFails := false } =
      some { videoUrl := "https://v19-webapp.tiktok.com/a.mp4",
             platform := Platform.tiktok } ∧
    ("https://v19-webapp.tiktok.com/a.mp4" : String) ≠ "" ∧
    (none : Option (List Nat)) = none :=
  download_failure_not_fatal _ _ (by decide) (Or.inl (by decide))

/-- C7: a returned mediaBuffer is the order-preserving concatenation of the
received stream chunks, its length is the sum of all chunk lengths, and it
never exceeds the 50 MiB cap. -/
theorem videoBuffer_concat_bounded (videoUrl : String) (r : FetchResponse)
    (evalFails : Bool) (data : List Nat)
    (h : (downloadVideoFromBrowser videoUrl r evalFails).2 = some data) :
    data = r.chunks.flatten ∧
    data.length = (r.chunks.map List.length).sum ∧
    data.length ≤ maxDownloadSize := by
  cases evalFails with
  | true => simp [downloadVideoFromBrowser] at h
  | false =>
      cases hb : browserFetchDownload r with
      | failure => simp [downloadVideoFromBrowser, hb] at h
      | success d s ct =>
          have hd : d = data := by
            simpa [downloadVideoFromBrowser, hb] using h
          subst hd
          obtain ⟨h1, h2, h3, h4⟩ :=
            browserFetchDownload_success_spec r d s ct hb
          exact ⟨h1, by rw [h4, h2], by rw [h4]; exact h3⟩

/-- C7 witness: a concrete two-chunk stream is returned concatenated in order
with its summed length under the cap. -/
theorem videoBuffer_concat_bounded_witness :
    ([1, 2, 3] : List Nat) = ([[1, 2], [3]] : List (List Nat)).flatten ∧
    ([1, 2, 3] : List Nat).length =
      (([[1, 2], [3]] : List (List Nat)).map List.length).sum ∧
    ([1, 2, 3] : List Nat).length ≤ maxDownloadSize :=
  videoBuffer_concat_bounded "https://v.example/a.mp4"
    { status := 200, contentLength := some 3, hasBody := true,
      chunks := [[1, 2], [3]], streamError := false,
      contentType := some "video/mp4" } false [1, 2, 3] (by decide)

/-- C8 counterexample: when `context.newPage()` itself rejects, the function
exits before entering the try/finally, so the opened browsing context is
closed zero times, not exactly once. -/
theorem context_close_leak_counterexample :
    (scrapeTikTokTrace
        { newPageOk := false, initScriptOk := true, bodyOk := true }).count
      LifecycleEvent.newContext = 1 ∧
    closeContextCount
      (scrapeTikTokTrace
        { newPageOk := false, initScriptOk := true, bodyOk := true }) = 0 := by
  decide

/-- C8 (amended): once page creation (and, on the TikTok path, init-script
registration) has succeeded, the browsing context is closed exactly once on
every exit path — success or error — of both scrape functions; when those
pre-try setup steps themselves fail, the finally clause is never reached and
the context is not closed. -/
theorem context_closed_once_after_setup (t : TikTokRunEnv)
    (i : InstagramRunEnv) (ht1 : t.newPageOk = true)
    (ht2 : t.initScriptOk = true) (hi : i.newPageOk = true) :
    closeContextCount (scrapeTikTokTrace t) = 1 ∧
    closeContextCount (scrapeInstagramTrace i) = 1 := by
  unfold closeContextCount scrapeTikTokTrace scrapeInstagramTrace
  rw [ht1, ht2, hi]
  cases hb : t.bodyOk <;> cases hb2 : i.bodyOk <;> decide

/-- C8 witness: concrete successful-setup runs close the context once, on both
a throwing TikTok body and a successful Instagram body. -/
theorem context_closed_once_after_setup_witness :
    closeContextCount (scrapeTikTokTrace
      { newPageOk := true, initScriptOk := true, bodyOk := false }) = 1 ∧
    closeContextCount (scrapeInstagramTrace
      { newPageOk := true, bodyOk := true }) = 1 :=
  context_closed_once_after_setup _ _ rfl rfl rfl

/-- C9: the download step returns its input URL unchanged in the `url` field
on the success path and on every failure path. -/
theorem downloadVideoFromBrowser_url_unchanged (videoUrl : String)
    (r : FetchResponse) (evalFails : Bool) :
    (downloadVideoFromBrowser videoUrl r evalFails).1 = videoUrl :=
  downloadVideoFromBrowser_fst videoUrl r evalFails

/-- C10 counterexample: an Instagram resolution failing on the
uninitialized-browser guard carries that guard's message, which does not begin
with the TikTok failure label. -/
theorem instagram_error_label_counterexample :
    scrapeInstagramErrorMsg false none none =
      some browserNotInitializedMsg ∧
    startsWithStr browserNotInitializedMsg tiktokFailureLabel = false := by
  decide

/-- C10 (amended): every Instagram failure raised inside the try body is
re-thrown with a message beginning with "Failed to scrape TikTok video: " —
the Instagram path labels its scraping failures with the TikTok label — while
pre-try failures (the uninitialized-browser guard, context or page setup) are
propagated unwrapped. -/
theorem instagram_body_error_tiktok_label (bodyMsg : String) :
    scrapeInstagramErrorMsg true none (some bodyMsg) =
      some (tiktokFailureLabel ++ bodyMsg) ∧
    startsWithStr (tiktokFailureLabel ++ bodyMsg) tiktokFailureLabel = true :=
  ⟨rfl, startsWithStr_append tiktokFailureLabel bodyMsg⟩

end VideoScraper
